import Mathlib

set_option maxRecDepth 8192
set_option linter.unusedVariables false

namespace VMS

/-! Shallow embedding of the device-bound licensing, integrity-guard and
read-cache subsystem of the VMS application (database.py and
utils/license.py).  Python strings are modelled as Lean `String`s (every
string this subsystem manipulates is ASCII); the ambient hardware identifier
`uuid.getnode()` is modelled as an explicit `node : Nat` parameter; the wall
clock is modelled as explicit parameters: a calendar `DateTime` for the date
logic and a seconds counter (`Nat`) for the cache TTL arithmetic. -/

/-! ## Python string helpers -/

/-- ASCII uppercase of one character, as Python's str.upper acts on ASCII text. -/
def pyUpperChar (c : Char) : Char :=
  if 97 ≤ c.toNat ∧ c.toNat ≤ 122 then Char.ofNat (c.toNat - 32) else c

/-- Python str.upper restricted to ASCII strings. -/
def pyUpper (s : String) : String := ⟨s.data.map pyUpperChar⟩

/-- Python str.split(sep) for a one-character separator, on the character
list of the string.  splitChar sep l is never empty. -/
def splitChar (sep : Char) : List Char → List (List Char)
  | [] => [[]]
  | c :: cs =>
    let r := splitChar sep cs
    if c = sep then [] :: r
    else (c :: r.headD []) :: r.tail

/-- Python str.startswith. -/
def pyStartsWith (p s : String) : Bool := List.isPrefixOf p.data s.data

/-- Python str.strip() (whitespace at both ends). -/
def pyStrip (s : String) : String :=
  ⟨((s.data.dropWhile Char.isWhitespace).reverse.dropWhile Char.isWhitespace).reverse⟩

/-- Numeric value of a nonempty all-digit character list (used to model
int() conversion inside strptime); none otherwise. -/
def digitsVal (l : List Char) : Option Nat :=
  if l ≠ [] ∧ l.all Char.isDigit then
    some (l.foldl (fun a c => a * 10 + (c.toNat - 48)) 0)
  else none

/-! ## Dates and datetimes (datetime.date / datetime.datetime) -/

structure Date where
  year : Nat
  month : Nat
  day : Nat
deriving DecidableEq, Repr

structure DateTime where
  date : Date
  hour : Nat
  minute : Nat
  second : Nat
deriving DecidableEq, Repr

/-- Lexicographic strict order on dates, as Python compares dates. -/
def Date.ltB (a b : Date) : Bool :=
  if a.year ≠ b.year then decide (a.year < b.year)
  else if a.month ≠ b.month then decide (a.month < b.month)
  else decide (a.day < b.day)

/-- Lexicographic strict order on datetimes, as Python compares datetimes. -/
def DateTime.ltB (a b : DateTime) : Bool :=
  if a.date ≠ b.date then Date.ltB a.date b.date
  else if a.hour ≠ b.hour then decide (a.hour < b.hour)
  else if a.minute ≠ b.minute then decide (a.minute < b.minute)
  else decide (a.second < b.second)

/-- Non-strict order on datetimes (total lexicographic order). -/
def DateTime.leB (a b : DateTime) : Bool := ! DateTime.ltB b a

def isLeapYear (y : Nat) : Bool :=
  y % 4 = 0 && (y % 100 ≠ 0 || y % 400 = 0)

def daysInMonth (y m : Nat) : Nat :=
  if m = 2 then (if isLeapYear y then 29 else 28)
  else if m = 4 ∨ m = 6 ∨ m = 9 ∨ m = 11 then 30
  else 31

/-- Modelled from Python's datetime.strptime with format Y-m-d: the year
field is exactly four digits, month and day are one or two digits, the whole
string must be consumed, and the resulting date must be a valid calendar
date (year at least 1), otherwise a ValueError is raised (modelled as none). -/
def parseYMD (s : String) : Option Date :=
  match splitChar '-' s.data with
  | [ys, ms, ds] =>
    match digitsVal ys, digitsVal ms, digitsVal ds with
    | some y, some m, some d =>
      if ys.length = 4 ∧ ms.length ≤ 2 ∧ ds.length ≤ 2 ∧
         1 ≤ y ∧ 1 ≤ m ∧ m ≤ 12 ∧ 1 ≤ d ∧ d ≤ daysInMonth y m then
        some ⟨y, m, d⟩
      else none
    | _, _, _ => none
  | _ => none

/-- datetime.combine(expiry_date, time(10, 0)): the 10:00 cutover instant on
a given date. -/
def cutover (d : Date) : DateTime := ⟨d, 10, 0, 0⟩

/-! ## SHA-256 (modelled from hashlib.sha256 / FIPS 180-4), over Nat with
explicit reduction mod 2^32 -/

def M32 : Nat := 4294967296

def rotr32 (n w : Nat) : Nat := ((w >>> n) ||| (w <<< (32 - n))) % M32

def not32 (x : Nat) : Nat := x ^^^ (M32 - 1)

def bsig0 (x : Nat) : Nat := rotr32 2 x ^^^ rotr32 13 x ^^^ rotr32 22 x
def bsig1 (x : Nat) : Nat := rotr32 6 x ^^^ rotr32 11 x ^^^ rotr32 25 x
def ssig0 (x : Nat) : Nat := rotr32 7 x ^^^ rotr32 18 x ^^^ (x >>> 3)
def ssig1 (x : Nat) : Nat := rotr32 17 x ^^^ rotr32 19 x ^^^ (x >>> 10)

def chf (x y z : Nat) : Nat := (x &&& y) ^^^ (not32 x &&& z)
def majf (x y z : Nat) : Nat := (x &&& y) ^^^ (x &&& z) ^^^ (y &&& z)

structure Hash8 where
  a : Nat
  b : Nat
  c : Nat
  d : Nat
  e : Nat
  f : Nat
  g : Nat
  h : Nat
deriving Repr

/-- The 64 SHA-256 round constants (FIPS 180-4, written in decimal). -/
def sha256K : List Nat :=
  [1116352408, 1899447441, 3049323471, 3921009573, 961987163,
   1508970993, 2453635748, 2870763221, 3624381080, 310598401,
   607225278, 1426881987, 1925078388, 2162078206, 2614888103,
   3248222580, 3835390401, 4022224774, 264347078, 604807628,
   770255983, 1249150122, 1555081692, 1996064986, 2554220882,
   2821834349, 2952996808, 3210313671, 3336571891, 3584528711,
   113926993, 338241895, 666307205, 773529912, 1294757372,
   1396182291, 1695183700, 1986661051, 2177026350, 2456956037,
   2730485921, 2820302411, 3259730800, 3345764771, 3516065817,
   3600352804, 4094571909, 275423344, 430227734, 506948616,
   659060556, 883997877, 958139571, 1322822218, 1537002063,
   1747873779, 1955562222, 2024104815, 2227730452, 2361852424,
   2428436474, 2756734187, 3204031479, 3329325298]

/-- The SHA-256 initial hash value (FIPS 180-4, written in decimal). -/
def sha256H0 : Hash8 :=
  ⟨1779033703, 3144134277, 1013904242, 2773480762,
   1359893119, 2600822924, 528734635, 1541459225⟩

/-- Bytes of a string; the strings hashed here are ASCII, where UTF-8
coincides with the character codes. -/
def strBytes (s : String) : List Nat := s.data.map (fun c => c.toNat % 256)

/-- SHA-256 message padding: a 0x80 byte, zeros up to 56 mod 64, then the
bit length as eight big-endian bytes. -/
def padMsg (bytes : List Nat) : List Nat :=
  let L := bytes.length
  let k := (119 - L % 64) % 64
  let lenBytes := (List.range 8).map (fun i => ((8 * L) >>> (8 * (7 - i))) % 256)
  bytes ++ 0x80 :: (List.replicate k 0 ++ lenBytes)

/-- Big-endian 32-bit words from a byte list whose length is a multiple of 4. -/
def bytesToWords : List Nat → List Nat
  | b1 :: b2 :: b3 :: b4 :: rest =>
    (((b1 * 256 + b2) * 256 + b3) * 256 + b4) :: bytesToWords rest
  | _ => []

/-- Split a word list into blocks of 16 words. -/
def toBlocks16 (l : List Nat) : List (List Nat) :=
  match l with
  | [] => []
  | w :: rest => ((w :: rest).take 16) :: toBlocks16 ((w :: rest).drop 16)
termination_by l.length
decreasing_by simp; omega

/-- One step of the message-schedule extension. -/
def schedNext (acc : List Nat) : Nat :=
  let t := acc.length
  (ssig1 (acc.getD (t - 2) 0) + acc.getD (t - 7) 0 +
   ssig0 (acc.getD (t - 15) 0) + acc.getD (t - 16) 0) % M32

def schedExtend : Nat → List Nat → List Nat
  | 0, acc => acc
  | n + 1, acc => schedExtend n (acc ++ [schedNext acc])

/-- The 64-word message schedule of one block. -/
def msgSched (block : List Nat) : List Nat := schedExtend 48 block

/-- One compression round. -/
def roundStep (s : Hash8) (wk : Nat × Nat) : Hash8 :=
  let t1 := (s.h + bsig1 s.e + chf s.e s.f s.g + wk.2 + wk.1) % M32
  let t2 := (bsig0 s.a + majf s.a s.b s.c) % M32
  ⟨(t1 + t2) % M32, s.a, s.b, s.c, (s.d + t1) % M32, s.e, s.f, s.g⟩

def compressBlock (H : Hash8) (block : List Nat) : Hash8 :=
  let w := ((msgSched block).zip sha256K).foldl roundStep H
  ⟨(H.a + w.a) % M32, (H.b + w.b) % M32, (H.c + w.c) % M32, (H.d + w.d) % M32,
   (H.e + w.e) % M32, (H.f + w.f) % M32, (H.g + w.g) % M32, (H.h + w.h) % M32⟩

def sha256words (s : String) : Hash8 :=
  (toBlocks16 (bytesToWords (padMsg (strBytes s)))).foldl compressBlock sha256H0

/-- A lowercase hexadecimal digit character, as produced by Python's hex
formatting (values 0-15). -/
def hexDigitLower (n : Nat) : Char :=
  if n < 10 then Char.ofNat (48 + n) else Char.ofNat (87 + n)

/-- Eight lowercase hex characters of one 32-bit word, most significant
nibble first. -/
def wordHex8 (w : Nat) : List Char :=
  (List.range 8).map (fun i => hexDigitLower ((w >>> (4 * (7 - i))) % 16))

/-- hashlib.sha256(... ).hexdigest() as a character list (64 lowercase hex
characters). -/
def sha256hex (s : String) : List Char :=
  let H := sha256words s
  wordHex8 H.a ++ wordHex8 H.b ++ wordHex8 H.c ++ wordHex8 H.d ++
  wordHex8 H.e ++ wordHex8 H.f ++ wordHex8 H.g ++ wordHex8 H.h

/-! ## Device fingerprints

Two distinct fingerprint functions exist in the source: the module-level
get_device_mac in database.py and the method LicenseManager.get_device_mac
in utils/license.py.  Both read uuid.getnode(), modelled as `node : Nat`. -/

namespace Database

/-- Two lowercase hex digits of one byte, as Python format 02x renders a
value below 256. -/
def byteHex2 (b : Nat) : List Char := [hexDigitLower (b / 16), hexDigitLower (b % 16)]

/-- database.get_device_mac: hex(uuid.getnode()).upper().  Python hex()
renders 0x followed by the minimal lowercase hex digits, which
Nat.toDigits 16 produces. -/
def get_device_mac (node : Nat) : String :=
  ⟨('0' :: 'x' :: Nat.toDigits 16 node).map pyUpperChar⟩

end Database

namespace License

/-- LicenseManager.get_device_mac: the six low-order bytes of uuid.getnode()
rendered as two lowercase hex digits each (format 02x), taken low byte
first, reversed, joined with colons, then uppercased.  The Python byte
extraction (node >> i) & 0xff is written (node >>> i) % 256. -/
def get_device_mac (node : Nat) : String :=
  ⟨(List.intercalate [':']
      (((List.range 6).map (fun i => Database.byteHex2 ((node >>> (8 * i)) % 256))).reverse)).map
    pyUpperChar⟩

/-- The string whose SHA-256 digest keys the Fernet cipher in
LicenseManager._get_encryption_key. -/
def encKeyBase (node : Nat) : String := "MNEO_VMS_SALT_" ++ get_device_mac node

/-- Modelled from the cryptography library's Fernet: an authenticated
symmetric ciphertext.  The cipher key is determined by the key-derivation
input string (`keyBase`); SHA-256 key derivation is idealised as injective,
so a ciphertext is modelled as the derivation input paired with the
plaintext, and decryption under any other derivation input fails. -/
structure Ciphertext where
  keyBase : String
  plain : String
deriving DecidableEq, Repr

/-- LicenseManager.encrypt under the key derived from the current device
fingerprint. -/
def encrypt (node : Nat) (text : String) : Ciphertext := ⟨encKeyBase node, text⟩

/-- LicenseManager.decrypt under the key derived from the current device
fingerprint; authenticated decryption under a mismatched key raises
(modelled as none). -/
def decrypt (node : Nat) (c : Ciphertext) : Option String :=
  if c.keyBase = encKeyBase node then some c.plain else none

/-- LicenseManager.generate_license_key: SHA-256 of mac_expiry_MNEO_VMS
(underscore separated), first 16 hex characters in four uppercased groups of
four joined by dashes.  range(0, 16, 4) is the index list [0, 4, 8, 12]. -/
def generate_license_key (mac expiry_date : String) : String :=
  let hashHex := sha256hex (mac ++ "_" ++ expiry_date ++ "_MNEO_VMS")
  ⟨List.intercalate ['-']
    ([0, 4, 8, 12].map (fun i => ((hashHex.drop i).take 4).map pyUpperChar))⟩

/-- LicenseManager.validate_license: recompute the key for the current
device fingerprint and compare. -/
def validate_license (node : Nat) (input_key expiry_date : String) : Bool :=
  decide (input_key = generate_license_key (get_device_mac node) expiry_date)

end License

/-! ## The persistence layer (database.py), modelled as explicit state -/

/-- The singleton license row (table license, id = 1).  license_key none
models the empty-string placeholder created on first run. -/
structure LicenseRow where
  license_key : Option License.Ciphertext
  device_mac : String
  activation_date : DateTime
  is_active : Bool
deriving DecidableEq, Repr

/-- One row of the visitors table, with the columns written by add_visitor
(check_out_time and duration are NULL on insert). -/
structure Visitor where
  nric : Option String
  hp_no : Option String
  first_name : String
  last_name : String
  name : String
  category : String
  purpose : String
  destination : String
  company : Option String
  vehicle_number : Option String
  pass_number : Option String
  id_number : Option String
  remarks : Option String
  person_visited : String
  organization : Option String
  check_in_time : DateTime
  check_out_time : Option DateTime
  duration : Option Int
deriving DecidableEq, Repr

/-- Values held by the read cache: row lists (active:all, history:today)
and counts (counts:today). -/
inductive CacheVal where
  | rows (rs : List Visitor)
  | count (n : Nat)
deriving DecidableEq, Repr

/-- _SimpleCache: a TTL map from string keys to timestamped values.  The
timestamps are seconds on the process clock. -/
structure SimpleCache where
  ttl : Nat
  store : List (String × Nat × CacheVal)
deriving DecidableEq, Repr

/-- _SimpleCache.get: a missing key is a miss; an entry older than the TTL
is deleted and reported as a miss; otherwise the value is returned.  The
mutated cache is returned alongside. -/
def cacheGet (now : Nat) (c : SimpleCache) (key : String) : Option CacheVal × SimpleCache :=
  match c.store.find? (fun e => decide (e.1 = key)) with
  | none => (none, c)
  | some e =>
    if now - e.2.1 > c.ttl then
      (none, ⟨c.ttl, c.store.filter (fun e => ! decide (e.1 = key))⟩)
    else (some e.2.2, c)

/-- _SimpleCache.set: store the value under the key with the current
timestamp (dictionary assignment replaces any previous entry). -/
def cacheSet (now : Nat) (c : SimpleCache) (key : String) (v : CacheVal) : SimpleCache :=
  ⟨c.ttl, (key, now, v) :: c.store.filter (fun e => ! decide (e.1 = key))⟩

/-- _SimpleCache.invalidate: none clears everything, some p removes every
key that starts with p. -/
def cacheInvalidate (pre : Option String) (c : SimpleCache) : SimpleCache :=
  match pre with
  | none => ⟨c.ttl, []⟩
  | some p => ⟨c.ttl, c.store.filter (fun e => ! pyStartsWith p e.1)⟩

/-- The persistent store plus the in-memory cache of one DatabaseManager.
blacklist and users rows are never touched by the modelled operations and
are carried opaquely. -/
structure SysState where
  license : Option LicenseRow
  visitors : List Visitor
  blacklist : List String
  users : List String
  cache : SimpleCache
deriving DecidableEq, Repr

namespace Database

/-- DatabaseManager.get_license_info: the singleton license row, none when
absent. -/
def get_license_info (st : SysState) : Option LicenseRow := st.license

/-- DatabaseManager.save_license: INSERT OR REPLACE the singleton row with
activation_date = CURRENT_TIMESTAMP, then invalidate the whole cache. -/
def save_license (key : License.Ciphertext) (mac : String) (is_active : Bool)
    (now : DateTime) (st : SysState) : Bool × SysState :=
  (true, { st with license := some ⟨some key, mac, now, is_active⟩,
                   cache := cacheInvalidate none st.cache })

/-- DatabaseManager.set_license_active: UPDATE is_active on the singleton
row (a no-op when no row exists), then invalidate the whole cache. -/
def set_license_active (active : Bool) (st : SysState) : Bool × SysState :=
  (true, { st with license := st.license.map (fun r => { r with is_active := active }),
                   cache := cacheInvalidate none st.cache })

/-- DatabaseManager._verify_device_identity, with an explicit flag modelling
the degraded path in which the underlying store is failing: _fetchone and
_execute catch sqlite errors internally, log them and return None, so under
failure the read yields no row and the fallback insert changes nothing. -/
def verify_device_identityF (dbFail : Bool) (node : Nat) (now : DateTime)
    (st : SysState) : SysState :=
  match (if dbFail then none else st.license) with
  | none =>
    if dbFail then st
    else { st with license := some ⟨none, get_device_mac node, now, false⟩ }
  | some r =>
    if r.device_mac ≠ get_device_mac node then
      { st with visitors := [],
                license := some { r with device_mac := get_device_mac node },
                cache := cacheInvalidate none st.cache }
    else st

/-- DatabaseManager._verify_device_identity on a healthy store. -/
def verify_device_identity (node : Nat) (now : DateTime) (st : SysState) : SysState :=
  verify_device_identityF false node now st

/-- DatabaseManager.validate_nric: full match of [STFG][0-9]x7[A-Z] against
the uppercased string. -/
def validate_nric (nric : String) : Bool :=
  match (pyUpper nric).data with
  | [c0, c1, c2, c3, c4, c5, c6, c7, c8] =>
    decide (c0 = 'S' ∨ c0 = 'T' ∨ c0 = 'F' ∨ c0 = 'G') &&
    (c1.isDigit && c2.isDigit && c3.isDigit && c4.isDigit &&
     c5.isDigit && c6.isDigit && c7.isDigit) &&
    decide (65 ≤ c8.toNat ∧ c8.toNat ≤ 90)
  | _ => false

/-- DatabaseManager.validate_hp: all digits and length exactly 8. -/
def validate_hp (hp_no : String) : Bool :=
  hp_no.data.all Char.isDigit && decide (hp_no.data.length = 8)

/-- Arguments of DatabaseManager.add_visitor, as passed by the registration
UI.  An optional text column that Python sees as an empty or missing value
is modelled as none or some of the empty string (both falsy). -/
structure AddVisitorArgs where
  nric : Option String
  hp_no : Option String
  first_name : String
  last_name : String
  name : Option String
  category : String
  purpose : String
  destination : String
  company : Option String
  vehicle_number : Option String
  pass_number : Option String
  id_number : Option String
  remarks : Option String
  person_visited : String
  organization : Option String
  check_in_time : Option DateTime
deriving DecidableEq, Repr

/-- Stable insertion into a list ordered by le (used to model ORDER BY). -/
def insertOrd {α : Type} (le : α → α → Bool) (x : α) : List α → List α
  | [] => [x]
  | y :: ys => if le x y then x :: y :: ys else y :: insertOrd le x ys

/-- Insertion sort by le (used to model ORDER BY). -/
def sortOrd {α : Type} (le : α → α → Bool) (l : List α) : List α :=
  l.foldr (insertOrd le) []

/-- ORDER BY check_in_time DESC. -/
def byCheckInDesc (a b : Visitor) : Bool := DateTime.leB b.check_in_time a.check_in_time

/-- DatabaseManager.add_visitor: uppercase and validate the NRIC when one is
given, validate the HP number when one is given, default the display name
and the check-in time, insert the row, then invalidate the active and
counts cache prefixes and report success. -/
def add_visitor (now : DateTime) (a : AddVisitorArgs) (st : SysState) : Bool × SysState :=
  let nricGiven := a.nric.getD "" ≠ ""
  if nricGiven ∧ validate_nric (pyUpper (a.nric.getD "")) = false then (false, st)
  else if (a.hp_no.getD "" ≠ "") ∧ validate_hp (a.hp_no.getD "") = false then (false, st)
  else
    let nricU := if nricGiven then some (pyUpper (a.nric.getD "")) else a.nric
    let nm := if a.name.getD "" = "" then pyStrip (a.first_name ++ " " ++ a.last_name)
              else a.name.getD ""
    let cit := a.check_in_time.getD now
    let v : Visitor := ⟨nricU, a.hp_no, a.first_name, a.last_name, nm, a.category,
      a.purpose, a.destination, a.company, a.vehicle_number, a.pass_number,
      a.id_number, a.remarks, a.person_visited, a.organization, cit, none, none⟩
    (true,
      { st with
        visitors := st.visitors ++ [v],
        cache := cacheInvalidate (some "counts")
                   (cacheInvalidate (some "active") st.cache) })

/-- DatabaseManager.get_todays_history: serve the cached history:today value
when present, otherwise select today's check-ins ordered by check_in_time
descending, cache the result and return it.  A count cached under the
history key cannot arise under the key discipline of this class. -/
def get_todays_history (today : Date) (tnow : Nat) (st : SysState) :
    List Visitor × SysState :=
  match cacheGet tnow st.cache "history:today" with
  | (some (CacheVal.rows rs), c) => (rs, { st with cache := c })
  | (some (CacheVal.count _), c) => ([], { st with cache := c })
  | (none, c) =>
    let result := sortOrd byCheckInDesc
      (st.visitors.filter (fun v => decide (v.check_in_time.date = today)))
    (result, { st with cache := cacheSet tnow c "history:today" (CacheVal.rows result) })

/-- DatabaseManager.get_todays_checkin_count: serve the cached counts:today
value when present, otherwise count today's check-ins, cache and return. -/
def get_todays_checkin_count (today : Date) (tnow : Nat) (st : SysState) :
    Nat × SysState :=
  match cacheGet tnow st.cache "counts:today" with
  | (some (CacheVal.count n), c) => (n, { st with cache := c })
  | (some (CacheVal.rows _), c) => (0, { st with cache := c })
  | (none, c) =>
    let n := (st.visitors.filter (fun v => decide (v.check_in_time.date = today))).length
    (n, { st with cache := cacheSet tnow c "counts:today" (CacheVal.count n) })

end Database

namespace License

/-- LicenseManager.is_licensed: no row, empty key or a deactivated license
is unlicensed; then the stored payload is decrypted (any failure is false),
split at the bar into key and expiry, the expiry parsed, the 10:00 cutover
compared with the clock, and finally the stored key revalidated against the
current fingerprint. -/
def is_licensed (node : Nat) (now : DateTime) (st : SysState) : Bool :=
  match Database.get_license_info st with
  | none => false
  | some info =>
    match info.license_key with
    | none => false
    | some c =>
      if info.is_active = false then false
      else
        match decrypt node c with
        | none => false
        | some dec =>
          match splitChar '|' dec.data with
          | [kl, el] =>
            match parseYMD ⟨el⟩ with
            | none => false
            | some d =>
              if DateTime.ltB (cutover d) now then false
              else validate_license node ⟨kl⟩ ⟨el⟩
          | _ => false

/-- LicenseManager.activate_license: validate the supplied key for the
current fingerprint, encrypt key bar expiry and persist it as the active
license bound to LicenseManager.get_device_mac. -/
def activate_license (node : Nat) (now : DateTime) (input_key expiry_date : String)
    (st : SysState) : Bool × SysState :=
  if validate_license node input_key expiry_date = false then (false, st)
  else
    Database.save_license (encrypt node (input_key ++ "|" ++ expiry_date))
      (get_device_mac node) true now st

/-- LicenseManager.login_with_key: decrypt the stored payload, compare the
supplied key with the stored one, check the expiry cutover, and on success
mark the license active again. -/
def login_with_key (node : Nat) (now : DateTime) (input_key : String)
    (st : SysState) : Bool × SysState :=
  match Database.get_license_info st with
  | none => (false, st)
  | some info =>
    match info.license_key with
    | none => (false, st)
    | some c =>
      match decrypt node c with
      | none => (false, st)
      | some dec =>
        match splitChar '|' dec.data with
        | [kl, el] =>
          if input_key ≠ String.mk kl then (false, st)
          else
            match parseYMD ⟨el⟩ with
            | none => (false, st)
            | some d =>
              if DateTime.ltB (cutover d) now then (false, st)
              else Database.set_license_active true st
        | _ => (false, st)

/-- LicenseManager.revoke_license with an explicit storage-failure flag:
DELETE the singleton license row; any storage error is swallowed and
reported as false. -/
def revoke_licenseF (dbFail : Bool) (st : SysState) : Bool × SysState :=
  if dbFail then (false, st) else (true, { st with license := none })

/-- LicenseManager.revoke_license on a healthy store. -/
def revoke_license (st : SysState) : Bool × SysState := revoke_licenseF false st

/-- Modelled from the spec (4.3): the first 16 hex characters of the SHA-256
digest of fingerprint underscore expiry underscore MNEO_VMS, uppercased and
grouped as four 4-character groups joined by dashes.  Stated separately from
generate_license_key to compare the code with the spec wording. -/
def derive_license_key_spec (fingerprint expiry : String) : String :=
  let hx := ((sha256hex (fingerprint ++ "_" ++ expiry ++ "_MNEO_VMS")).take 16).map pyUpperChar
  ⟨List.intercalate ['-']
    [hx.take 4, (hx.drop 4).take 4, (hx.drop 8).take 4, (hx.drop 12).take 4]⟩

/-- Modelled from the spec (7): the error taxonomy of the license layer. -/
inductive LicenseError where
  | crypto
  | format
  | expiry
  | mismatch
  | storage
deriving DecidableEq, Repr

/-- Modelled from the spec (7): is_licensed with the internal failure left
explicit as a LicenseError instead of collapsed to a boolean. -/
def is_licensedE (node : Nat) (now : DateTime) (st : SysState) :
    Except LicenseError Bool :=
  match Database.get_license_info st with
  | none => Except.ok false
  | some info =>
    match info.license_key with
    | none => Except.ok false
    | some c =>
      if info.is_active = false then Except.ok false
      else
        match decrypt node c with
        | none => Except.error LicenseError.crypto
        | some dec =>
          match splitChar '|' dec.data with
          | [kl, el] =>
            match parseYMD ⟨el⟩ with
            | none => Except.error LicenseError.format
            | some d =>
              if DateTime.ltB (cutover d) now then Except.error LicenseError.expiry
              else if validate_license node ⟨kl⟩ ⟨el⟩ then Except.ok true
              else Except.error LicenseError.mismatch
          | _ => Except.error LicenseError.format

/-- Modelled from the spec (7): login_with_key with the internal failure
left explicit. -/
def login_with_keyE (node : Nat) (now : DateTime) (input_key : String)
    (st : SysState) : Except LicenseError (Bool × SysState) :=
  match Database.get_license_info st with
  | none => Except.ok (false, st)
  | some info =>
    match info.license_key with
    | none => Except.ok (false, st)
    | some c =>
      match decrypt node c with
      | none => Except.error LicenseError.crypto
      | some dec =>
        match splitChar '|' dec.data with
        | [kl, el] =>
          if input_key ≠ String.mk kl then Except.error LicenseError.mismatch
          else
            match parseYMD ⟨el⟩ with
            | none => Except.error LicenseError.format
            | some d =>
              if DateTime.ltB (cutover d) now then Except.error LicenseError.expiry
              else Except.ok (Database.set_license_active true st)
        | _ => Except.error LicenseError.format

/-- The public-boundary collapse of an internal license result to a bare
boolean (spec 7: every internal error becomes false). -/
def errBool (r : Except LicenseError Bool) : Bool :=
  match r with
  | Except.ok b => b
  | Except.error _ => false

/-- The public-boundary collapse for login: an internal error becomes false
with the state untouched. -/
def errLogin (st : SysState) (r : Except LicenseError (Bool × SysState)) :
    Bool × SysState :=
  match r with
  | Except.ok p => p
  | Except.error _ => (false, st)

end License

/-! ## Concrete fixtures used by witnesses and counterexamples -/

def dtSample : DateTime := ⟨⟨2026, 1, 2⟩, 8, 0, 0⟩

def vSample : Visitor :=
  ⟨none, none, "Ada", "Lovelace", "Ada Lovelace", "Guest", "Meeting", "Lobby",
   none, none, none, none, none, "Host", none, dtSample, none, none⟩

/-- A fresh, empty store with the default cache TTL of 5 seconds. -/
def st0 : SysState := ⟨none, [], [], [], ⟨5, []⟩⟩

/-- A store carrying one visitor row and a license row bound to another
machine (fingerprint OLD). -/
def stC2 : SysState := ⟨some ⟨none, "OLD", dtSample, false⟩, [vSample], [], [], ⟨5, []⟩⟩

/-- A store carrying one visitor row, already bound to the fingerprint of
node 0 as database.get_device_mac renders it. -/
def stC4 : SysState := ⟨some ⟨none, "0X0", dtSample, false⟩, [vSample], [], [], ⟨5, []⟩⟩

def argsC4 : Database.AddVisitorArgs :=
  ⟨none, none, "New", "Visitor", some "New Visitor", "Guest", "Meeting", "Lobby",
   none, none, none, none, none, "Host", none, some ⟨⟨2026, 1, 2⟩, 9, 0, 0⟩⟩

/-- The visitors row that add_visitor inserts for argsC4. -/
def rowC4 : Visitor :=
  ⟨none, none, "New", "Visitor", "New Visitor", "Guest", "Meeting", "Lobby",
   none, none, none, none, none, "Host", none, ⟨⟨2026, 1, 2⟩, 9, 0, 0⟩, none, none⟩

/-- A store holding an active, correctly encrypted license whose expiry
date (2000-01-01) lies far in the past. -/
def stC6 : SysState :=
  ⟨some ⟨some (License.encrypt 0 "KEY|2000-01-01"), "00:00:00:00:00:00", dtSample, true⟩,
   [], [], [], ⟨5, []⟩⟩

/-! ## General lemmas about the string helpers -/

theorem stringMk_data (s : String) : String.mk s.data = s := by cases s; rfl

theorem bar_data : ("|" : String).data = ['|'] := rfl

theorem splitChar_ne_nil (sep : Char) (l : List Char) : splitChar sep l ≠ [] := by
  cases l with
  | nil => simp [splitChar]
  | cons c cs => by_cases h : c = sep <;> simp [splitChar, h]

theorem splitChar_of_not_mem {sep : Char} {l : List Char} (h : sep ∉ l) :
    splitChar sep l = [l] := by
  induction l with
  | nil => rfl
  | cons c cs ih =>
    have hc : ¬ c = sep := fun e => h (e ▸ List.mem_cons_self c cs)
    have hcs : sep ∉ cs := fun m => h (List.mem_cons_of_mem _ m)
    simp [splitChar, hc, ih hcs]

theorem splitChar_append {sep : Char} {l₁ : List Char} (l₂ : List Char) (h : sep ∉ l₁) :
    splitChar sep (l₁ ++ sep :: l₂) = l₁ :: splitChar sep l₂ := by
  induction l₁ with
  | nil => simp [splitChar]
  | cons c cs ih =>
    have hc : ¬ c = sep := fun e => h (e ▸ List.mem_cons_self c cs)
    have hcs : sep ∉ cs := fun m => h (List.mem_cons_of_mem _ m)
    have hne := splitChar_ne_nil sep (cs ++ sep :: l₂)
    simp [splitChar, hc, ih hcs]

theorem exists_part_of_mem {sep : Char} {l : List Char} {c : Char}
    (hc : c ∈ l) (hne : c ≠ sep) : ∃ p ∈ splitChar sep l, c ∈ p := by
  induction l with
  | nil => cases hc
  | cons c' cs ih =>
    obtain ⟨hh, ht, hr⟩ := List.exists_cons_of_ne_nil (splitChar_ne_nil sep cs)
    by_cases hsep : c' = sep
    · rcases List.mem_cons.mp hc with rfl | hmem
      · exact absurd hsep hne
      · obtain ⟨p, hp, hcp⟩ := ih hmem
        exact ⟨p, by simp [splitChar, hsep]; exact Or.inr hp, hcp⟩
    · rcases List.mem_cons.mp hc with rfl | hmem
      · exact ⟨c :: hh, by simp [splitChar, hsep, hr], List.mem_cons_self _ _⟩
      · obtain ⟨p, hp, hcp⟩ := ih hmem
        rw [hr] at hp
        rcases List.mem_cons.mp hp with rfl | hp2
        · exact ⟨c' :: p, by simp [splitChar, hsep, hr], List.mem_cons_of_mem _ hcp⟩
        · exact ⟨p, by simp [splitChar, hsep, hr]; exact Or.inr hp2, hcp⟩

theorem digitsVal_all_digit {l : List Char} {n : Nat} (h : digitsVal l = some n) :
    ∀ c ∈ l, c.isDigit = true := by
  unfold digitsVal at h
  split at h
  · next hcond => exact List.all_eq_true.mp hcond.2
  · cases h

theorem parseYMD_chars {s : String} {d : Date} (h : parseYMD s = some d) :
    ∀ c ∈ s.data, c = '-' ∨ c.isDigit = true := by
  intro c hc
  by_cases hdash : c = '-'
  · exact Or.inl hdash
  · right
    obtain ⟨p, hp, hcp⟩ := exists_part_of_mem hc hdash
    unfold parseYMD at h
    rcases hsp : splitChar '-' s.data with _ | ⟨ys, _ | ⟨ms, _ | ⟨ds, _ | _⟩⟩⟩ <;>
      rw [hsp] at h hp <;> simp at h hp ⊢
    · rcases hy : digitsVal ys with _ | y <;> rw [hy] at h
      · simp at h
      · rcases hm : digitsVal ms with _ | m <;> rw [hm] at h
        · simp at h
        · rcases hd : digitsVal ds with _ | dd <;> rw [hd] at h
          · simp at h
          · rcases hp with rfl | rfl | rfl
            · exact digitsVal_all_digit hy _ hcp
            · exact digitsVal_all_digit hm _ hcp
            · exact digitsVal_all_digit hd _ hcp

theorem parseYMD_no_bar {s : String} {d : Date} (h : parseYMD s = some d) :
    '|' ∉ s.data := by
  intro hm
  rcases parseYMD_chars h _ hm with h1 | h2
  · cases h1
  · cases h2

/-! ## Character classification of the hex machinery -/

theorem hexUpper_allowed (m : Nat) :
    pyUpperChar (hexDigitLower (m % 16)) ≠ 'X' ∧
    pyUpperChar (hexDigitLower (m % 16)) ≠ '|' := by
  obtain ⟨r, hrlt, hre⟩ : ∃ r, r < 16 ∧ m % 16 = r :=
    ⟨m % 16, Nat.mod_lt _ (by omega), rfl⟩
  rw [hre]
  interval_cases r <;> exact ⟨by decide, by decide⟩

theorem wordHex8_chars {w : Nat} {c : Char} (h : c ∈ wordHex8 w) :
    ∃ m, c = hexDigitLower (m % 16) := by
  unfold wordHex8 at h
  obtain ⟨i, _, hfc⟩ := List.mem_map.mp h
  exact ⟨w >>> (4 * (7 - i)), hfc.symm⟩

theorem sha256hex_chars {s : String} {c : Char} (h : c ∈ sha256hex s) :
    ∃ m, c = hexDigitLower (m % 16) := by
  unfold sha256hex at h
  simp only [List.mem_append] at h
  rcases h with ((((((h | h) | h) | h) | h) | h) | h) | h <;> exact wordHex8_chars h

theorem intercalate_four {α : Type} (sep : α) (a b c d : List α) :
    List.intercalate [sep] [a, b, c, d] = a ++ sep :: (b ++ sep :: (c ++ sep :: d)) := by
  simp [List.intercalate]

theorem mem_intercalate_four {α : Type} {sep : α} {a b c d : List α} {x : α}
    (h : x ∈ List.intercalate [sep] [a, b, c, d]) :
    x = sep ∨ x ∈ a ∨ x ∈ b ∨ x ∈ c ∨ x ∈ d := by
  rw [intercalate_four] at h
  simp only [List.mem_append, List.mem_cons] at h
  tauto

theorem generate_license_key_chars {mac e : String} {c : Char}
    (h : c ∈ (License.generate_license_key mac e).data) : c ≠ '|' := by
  have h' : c ∈ List.intercalate ['-']
      [((sha256hex (mac ++ "_" ++ e ++ "_MNEO_VMS")).drop 0).take 4 |>.map pyUpperChar,
       ((sha256hex (mac ++ "_" ++ e ++ "_MNEO_VMS")).drop 4).take 4 |>.map pyUpperChar,
       ((sha256hex (mac ++ "_" ++ e ++ "_MNEO_VMS")).drop 8).take 4 |>.map pyUpperChar,
       ((sha256hex (mac ++ "_" ++ e ++ "_MNEO_VMS")).drop 12).take 4 |>.map pyUpperChar] := h
  rcases mem_intercalate_four h' with rfl | h'' | h'' | h'' | h'' <;>
    [skip;
     obtain ⟨x, hx, rfl⟩ := List.mem_map.mp h'';
     obtain ⟨x, hx, rfl⟩ := List.mem_map.mp h'';
     obtain ⟨x, hx, rfl⟩ := List.mem_map.mp h'';
     obtain ⟨x, hx, rfl⟩ := List.mem_map.mp h'']
  · decide
  all_goals
    obtain ⟨m, rfl⟩ := sha256hex_chars
      (List.drop_subset _ _ (List.take_subset _ _ hx))
    exact (hexUpper_allowed m).2

/-! ## Claim C1 -/

theorem lic_mac_second_char (node : Nat) :
    (License.get_device_mac node).data[1]? =
      some (pyUpperChar (hexDigitLower ((node >>> (8 * 5)) % 256 % 16))) := rfl

theorem data_mk (l : List Char) : (String.mk l).data = l := rfl

theorem db_mac_second_char (node : Nat) :
    (Database.get_device_mac node).data[1]? = some 'X' := by
  show (List.map pyUpperChar ('0' :: 'x' :: Nat.toDigits 16 node))[1]? = some 'X'
  simp [List.getElem?_cons_succ, List.getElem?_cons_zero]
  decide

/-- C1: the two device-fingerprint functions never agree: for every node
value, LicenseManager.get_device_mac yields colon-separated uppercase hex
octets while database.get_device_mac yields the Python hex-literal form
0X...; consequently after any successful activate_license (which persists
the colon form) the startup guard _verify_device_identity (which recomputes
the 0X form) takes the mismatch branch and deletes every visitors row. -/
theorem C1_device_fingerprints_disagree (node : Nat) :
    License.get_device_mac node ≠ Database.get_device_mac node ∧
    ∀ (now now2 : DateTime) (k e : String) (st : SysState),
      (License.activate_license node now k e st).1 = true →
      (Database.verify_device_identity node now2
        (License.activate_license node now k e st).2).visitors = [] := by
  have hne : License.get_device_mac node ≠ Database.get_device_mac node := by
    intro h
    have h2 : (License.get_device_mac node).data[1]? =
        (Database.get_device_mac node).data[1]? := by rw [h]
    rw [lic_mac_second_char, db_mac_second_char] at h2
    exact (hexUpper_allowed ((node >>> (8 * 5)) % 256)).1 (Option.some.inj h2)
  refine ⟨hne, ?_⟩
  intro now now2 k e st hact
  have hv : License.validate_license node k e = true := by
    by_contra hv
    have hvf : License.validate_license node k e = false := by
      cases h : License.validate_license node k e
      · rfl
      · exact absurd h hv
    simp [License.activate_license, hvf] at hact
  simp [License.activate_license, hv, Database.save_license,
        Database.verify_device_identity, Database.verify_device_identityF, hne]

/-- Witness for C1 at node 77 with a successful activation. -/
theorem C1_device_fingerprints_disagree_witness :
    License.get_device_mac 77 ≠ Database.get_device_mac 77 ∧
    (Database.verify_device_identity 77 dtSample
      (License.activate_license 77 dtSample
        (License.generate_license_key (License.get_device_mac 77) "2026-01-01")
        "2026-01-01" st0).2).visitors = [] := by
  have hval : License.validate_license 77
      (License.generate_license_key (License.get_device_mac 77) "2026-01-01")
      "2026-01-01" = true := by
    unfold License.validate_license
    exact decide_eq_true rfl
  refine ⟨(C1_device_fingerprints_disagree 77).1,
    (C1_device_fingerprints_disagree 77).2 dtSample dtSample _ "2026-01-01" st0 ?_⟩
  simp [License.activate_license, hval, Database.save_license]

/-! ## Claims C2 and C9: the integrity guard on a fingerprint mismatch -/

theorem verify_mismatch {node : Nat} {now : DateTime} {st : SysState} {r : LicenseRow}
    (hl : st.license = some r) (hm : r.device_mac ≠ Database.get_device_mac node) :
    Database.verify_device_identity node now st =
      { st with visitors := [],
                license := some { r with device_mac := Database.get_device_mac node },
                cache := cacheInvalidate none st.cache } := by
  simp [Database.verify_device_identity, Database.verify_device_identityF, hl, hm]

/-- C2 counterexample: at a concrete mismatched store holding one visitor
row, the guard's post-state is exactly the cleared store — the business
records are deleted in place and no component of the persisted state (and
no backup table, none existing in the schema) retains a copy of them, so no
timestamped backup snapshot is taken before clearing. -/
theorem C2_no_backup_counterexample :
    stC2.visitors = [vSample] ∧
    Database.verify_device_identity 0 dtSample stC2 =
      ⟨some ⟨none, "0X0", dtSample, false⟩, [], [], [], ⟨5, []⟩⟩ ∧
    vSample ∉ (Database.verify_device_identity 0 dtSample stC2).visitors := by
  refine ⟨rfl, by decide, by decide⟩

/-- C2 (amended): when the stored fingerprint differs from the current one,
the guard deletes all visitors rows in place without taking any backup
snapshot, and updates the stored fingerprint to the current one; afterwards
the business table is empty, the stored fingerprint equals the current
fingerprint, and the rest of the store (license payload, is_active,
blacklist, users) is exactly as before with the cache cleared. -/
theorem C2_mismatch_clears_in_place (node : Nat) (now : DateTime) (st : SysState)
    (r : LicenseRow) (hl : st.license = some r)
    (hm : r.device_mac ≠ Database.get_device_mac node) :
    Database.verify_device_identity node now st =
      { st with visitors := [],
                license := some { r with device_mac := Database.get_device_mac node },
                cache := cacheInvalidate none st.cache } :=
  verify_mismatch hl hm

/-- Witness for C2 (amended) at node 0 on the concrete mismatched store. -/
theorem C2_mismatch_clears_in_place_witness :
    Database.verify_device_identity 0 dtSample stC2 =
      ⟨some ⟨none, "0X0", dtSample, false⟩, [], [], [], ⟨5, []⟩⟩ := by
  have h := C2_mismatch_clears_in_place 0 dtSample stC2
    ⟨none, "OLD", dtSample, false⟩ rfl (by decide)
  exact h

/-- C9: on a fingerprint mismatch the guard modifies only the stored
fingerprint and the visitors rows: the encrypted payload, the is_active
flag and the activation date of the license row, and the blacklist and
users tables, are left unchanged. -/
theorem C9_guard_frame (node : Nat) (now : DateTime) (st : SysState) (r : LicenseRow)
    (hl : st.license = some r) (hm : r.device_mac ≠ Database.get_device_mac node) :
    (Database.verify_device_identity node now st).license =
      some ⟨r.license_key, Database.get_device_mac node, r.activation_date, r.is_active⟩ ∧
    (Database.verify_device_identity node now st).visitors = [] ∧
    (Database.verify_device_identity node now st).blacklist = st.blacklist ∧
    (Database.verify_device_identity node now st).users = st.users := by
  rw [verify_mismatch hl hm]
  exact ⟨rfl, rfl, rfl, rfl⟩

/-- Witness for C9 at node 0 on the concrete mismatched store. -/
theorem C9_guard_frame_witness :
    (Database.verify_device_identity 0 dtSample stC2).license =
      some ⟨none, "0X0", dtSample, false⟩ ∧
    (Database.verify_device_identity 0 dtSample stC2).visitors = [] ∧
    (Database.verify_device_identity 0 dtSample stC2).blacklist = [] ∧
    (Database.verify_device_identity 0 dtSample stC2).users = [] := by
  have h := C9_guard_frame 0 dtSample stC2 ⟨none, "OLD", dtSample, false⟩ rfl (by decide)
  exact h

/-! ## Claim C6: the 10:00 expiry cutover -/

theorem is_licensed_expired_aux {node : Nat} {now : DateTime} {st : SysState}
    {r : LicenseRow} {c : License.Ciphertext} {dec : String} {kl el : List Char} {d : Date}
    (hl : st.license = some r) (hk : r.license_key = some c)
    (hdec : License.decrypt node c = some dec)
    (hsplit : splitChar '|' dec.data = [kl, el])
    (hp : parseYMD (String.mk el) = some d)
    (hexp : DateTime.ltB (cutover d) now = true) :
    License.is_licensed node now st = false := by
  unfold License.is_licensed
  by_cases ha : r.is_active = false
  · simp [Database.get_license_info, hl, hk, ha]
  · have ha' : r.is_active = true := by
      cases h : r.is_active
      · exact absurd h ha
      · rfl
    simp [Database.get_license_info, hl, hk, ha', hdec, hsplit, hp, hexp]

/-- C6: is_licensed returns false whenever the clock is strictly past 10:00
on the stored expiry date, even though the payload decrypts, splits into a
key and a parseable expiry, and the license row is marked active. -/
theorem C6_expired_is_unlicensed (node : Nat) (now : DateTime) (st : SysState)
    (r : LicenseRow) (c : License.Ciphertext) (dec : String) (kl el : List Char) (d : Date)
    (hl : st.license = some r) (hk : r.license_key = some c)
    (ha : r.is_active = true)
    (hdec : License.decrypt node c = some dec)
    (hsplit : splitChar '|' dec.data = [kl, el])
    (hp : parseYMD (String.mk el) = some d)
    (hexp : DateTime.ltB (cutover d) now = true) :
    License.is_licensed node now st = false :=
  is_licensed_expired_aux hl hk hdec hsplit hp hexp

/-- Witness for C6: an active, correctly bound license with expiry
2000-01-01 checked on 2026-01-02 is not licensed. -/
theorem C6_expired_is_unlicensed_witness :
    License.is_licensed 0 dtSample stC6 = false :=
  C6_expired_is_unlicensed 0 dtSample stC6
    ⟨some (License.encrypt 0 "KEY|2000-01-01"), "00:00:00:00:00:00", dtSample, true⟩
    (License.encrypt 0 "KEY|2000-01-01") "KEY|2000-01-01"
    "KEY".data "2000-01-01".data ⟨2000, 1, 1⟩
    rfl rfl rfl (by decide) (by decide) (by decide) (by decide)

/-! ## Claims C3 and C5: activation, logout and login -/

theorem is_licensed_of_valid_payload {node : Nat} {now : DateTime} {st : SysState}
    {r : LicenseRow} {k e : String} {d : Date}
    (hl : st.license = some r)
    (hk : r.license_key = some (License.encrypt node (k ++ "|" ++ e)))
    (ha : r.is_active = true)
    (hv : License.validate_license node k e = true)
    (hp : parseYMD e = some d)
    (hexp : DateTime.ltB (cutover d) now = false) :
    License.is_licensed node now st = true := by
  have hkgen : k = License.generate_license_key (License.get_device_mac node) e :=
    of_decide_eq_true hv
  have hkbar : '|' ∉ k.data := fun hm => generate_license_key_chars (hkgen ▸ hm) rfl
  have hebar : '|' ∉ e.data := parseYMD_no_bar hp
  have hdec : License.decrypt node (License.encrypt node (k ++ "|" ++ e)) =
      some (k ++ "|" ++ e) := by simp [License.decrypt, License.encrypt]
  have hdata : (k ++ "|" ++ e).data = k.data ++ '|' :: e.data := by
    simp [String.data_append, bar_data]
  have hsplit : splitChar '|' (k.data ++ '|' :: e.data) = [k.data, e.data] := by
    rw [splitChar_append _ hkbar, splitChar_of_not_mem hebar]
  unfold License.is_licensed
  simp [Database.get_license_info, hl, hk, ha, hdec, hsplit, stringMk_data, hp, hexp, hv]

/-- C3 counterexample: validate ignores the expiry, so with the long-past
expiry date 2000-01-01 and its matching key, validate is true and
activate_license succeeds, yet the immediately following is_licensed is
false (the 10:00 cutover of 2000-01-01 has passed). -/
theorem C3_expired_activation_counterexample :
    License.validate_license 0
      (License.generate_license_key (License.get_device_mac 0) "2000-01-01")
      "2000-01-01" = true ∧
    (License.activate_license 0 dtSample
      (License.generate_license_key (License.get_device_mac 0) "2000-01-01")
      "2000-01-01" st0).1 = true ∧
    License.is_licensed 0 dtSample
      (License.activate_license 0 dtSample
        (License.generate_license_key (License.get_device_mac 0) "2000-01-01")
        "2000-01-01" st0).2 = false := by
  have hval : License.validate_license 0
      (License.generate_license_key (License.get_device_mac 0) "2000-01-01")
      "2000-01-01" = true := by
    unfold License.validate_license
    exact decide_eq_true rfl
  have hkbar : '|' ∉ (License.generate_license_key (License.get_device_mac 0)
      "2000-01-01").data := fun hm => generate_license_key_chars hm rfl
  have hebar : '|' ∉ ("2000-01-01" : String).data := by decide
  have hdata : (License.generate_license_key (License.get_device_mac 0) "2000-01-01"
      ++ "|" ++ "2000-01-01").data =
      (License.generate_license_key (License.get_device_mac 0) "2000-01-01").data
        ++ '|' :: ("2000-01-01" : String).data := by
    simp [String.data_append, bar_data]
  have hsplit : splitChar '|' (License.generate_license_key (License.get_device_mac 0)
      "2000-01-01" ++ "|" ++ "2000-01-01").data =
      [(License.generate_license_key (License.get_device_mac 0) "2000-01-01").data,
       ("2000-01-01" : String).data] := by
    rw [hdata, splitChar_append _ hkbar, splitChar_of_not_mem hebar]
  have hst : (License.activate_license 0 dtSample
      (License.generate_license_key (License.get_device_mac 0) "2000-01-01")
      "2000-01-01" st0).2 =
      { st0 with
        license := some ⟨some (License.encrypt 0
          (License.generate_license_key (License.get_device_mac 0) "2000-01-01"
            ++ "|" ++ "2000-01-01")),
          License.get_device_mac 0, dtSample, true⟩,
        cache := cacheInvalidate none st0.cache } := by
    simp [License.activate_license, hval, Database.save_license]
  have hpp : parseYMD (String.mk ("2000-01-01" : String).data) = some ⟨2000, 1, 1⟩ := by
    rw [stringMk_data]; decide
  refine ⟨hval, by simp [License.activate_license, hval, Database.save_license], ?_⟩
  rw [hst]
  exact is_licensed_expired_aux rfl rfl
    (by simp [License.decrypt, License.encrypt]) hsplit hpp (by decide)

/-- C3 (amended): if validate(k, e) is true at call time and, in addition,
e parses as a calendar date whose 10:00 cutover has not yet passed, then
activate(k, e) succeeds, an immediately following is_licensed() returns
true, and a fresh read of the store returns exactly the activated row
(payload, binding, timestamp, active flag), so the persisted state survives
a restart. -/
theorem C3_activate_then_licensed (node : Nat) (now : DateTime) (k e : String)
    (d : Date) (st : SysState)
    (hv : License.validate_license node k e = true)
    (hp : parseYMD e = some d)
    (hexp : DateTime.ltB (cutover d) now = false) :
    (License.activate_license node now k e st).1 = true ∧
    License.is_licensed node now (License.activate_license node now k e st).2 = true ∧
    Database.get_license_info (License.activate_license node now k e st).2 =
      some ⟨some (License.encrypt node (k ++ "|" ++ e)),
            License.get_device_mac node, now, true⟩ := by
  have hst : (License.activate_license node now k e st).2 =
      { st with
        license := some ⟨some (License.encrypt node (k ++ "|" ++ e)),
          License.get_device_mac node, now, true⟩,
        cache := cacheInvalidate none st.cache } := by
    simp [License.activate_license, hv, Database.save_license]
  refine ⟨by simp [License.activate_license, hv, Database.save_license], ?_, ?_⟩
  · rw [hst]
    exact is_licensed_of_valid_payload rfl rfl rfl hv hp hexp
  · rw [hst]
    rfl

/-- Witness for C3 (amended) at node 0 with expiry 2099-01-01, checked on
2026-01-02. -/
theorem C3_activate_then_licensed_witness :
    (License.activate_license 0 dtSample
      (License.generate_license_key (License.get_device_mac 0) "2099-01-01")
      "2099-01-01" st0).1 = true ∧
    License.is_licensed 0 dtSample
      (License.activate_license 0 dtSample
        (License.generate_license_key (License.get_device_mac 0) "2099-01-01")
        "2099-01-01" st0).2 = true ∧
    Database.get_license_info
      (License.activate_license 0 dtSample
        (License.generate_license_key (License.get_device_mac 0) "2099-01-01")
        "2099-01-01" st0).2 =
      some ⟨some (License.encrypt 0
              (License.generate_license_key (License.get_device_mac 0) "2099-01-01"
                ++ "|" ++ "2099-01-01")),
            License.get_device_mac 0, dtSample, true⟩ :=
  C3_activate_then_licensed 0 dtSample
    (License.generate_license_key (License.get_device_mac 0) "2099-01-01")
    "2099-01-01" ⟨2099, 1, 1⟩ st0
    (by unfold License.validate_license; exact decide_eq_true rfl)
    (by decide) (by decide)

/-- C5: for a license activated with key k and an expiry whose 10:00
cutover has not yet passed, logout (set_license_active false) flips only the
is_active flag, after which is_licensed is false; a subsequent login with
the originally activated key returns true and restores is_licensed to
true. -/
theorem C5_logout_login_roundtrip (node : Nat) (now : DateTime) (k e : String)
    (d : Date) (st : SysState)
    (hv : License.validate_license node k e = true)
    (hp : parseYMD e = some d)
    (hexp : DateTime.ltB (cutover d) now = false) :
    (License.activate_license node now k e st).1 = true ∧
    License.is_licensed node now
      (Database.set_license_active false
        (License.activate_license node now k e st).2).2 = false ∧
    (License.login_with_key node now k
      (Database.set_license_active false
        (License.activate_license node now k e st).2).2).1 = true ∧
    License.is_licensed node now
      (License.login_with_key node now k
        (Database.set_license_active false
          (License.activate_license node now k e st).2).2).2 = true := by
  have hkgen : k = License.generate_license_key (License.get_device_mac node) e :=
    of_decide_eq_true hv
  have hkbar : '|' ∉ k.data := fun hm => generate_license_key_chars (hkgen ▸ hm) rfl
  have hebar : '|' ∉ e.data := parseYMD_no_bar hp
  have hdec : License.decrypt node (License.encrypt node (k ++ "|" ++ e)) =
      some (k ++ "|" ++ e) := by simp [License.decrypt, License.encrypt]
  have hdata : (k ++ "|" ++ e).data = k.data ++ '|' :: e.data := by
    simp [String.data_append, bar_data]
  have hsplit : splitChar '|' (k.data ++ '|' :: e.data) = [k.data, e.data] := by
    rw [splitChar_append _ hkbar, splitChar_of_not_mem hebar]
  have hA : (License.activate_license node now k e st).2 =
      { st with
        license := some ⟨some (License.encrypt node (k ++ "|" ++ e)),
          License.get_device_mac node, now, true⟩,
        cache := cacheInvalidate none st.cache } := by
    simp [License.activate_license, hv, Database.save_license]
  have hL : (Database.set_license_active false
      ({ st with
         license := some ⟨some (License.encrypt node (k ++ "|" ++ e)),
           License.get_device_mac node, now, true⟩,
         cache := cacheInvalidate none st.cache } : SysState)).2 =
      { st with
        license := some ⟨some (License.encrypt node (k ++ "|" ++ e)),
          License.get_device_mac node, now, false⟩,
        cache := cacheInvalidate none (cacheInvalidate none st.cache) } := by
    simp [Database.set_license_active]
  have hlog : License.login_with_key node now k
      ({ st with
         license := some ⟨some (License.encrypt node (k ++ "|" ++ e)),
           License.get_device_mac node, now, false⟩,
         cache := cacheInvalidate none (cacheInvalidate none st.cache) } : SysState) =
      (true,
       { st with
         license := some ⟨some (License.encrypt node (k ++ "|" ++ e)),
           License.get_device_mac node, now, true⟩,
         cache := cacheInvalidate none
           (cacheInvalidate none (cacheInvalidate none st.cache)) }) := by
    unfold License.login_with_key
    simp [Database.get_license_info, hdec, hdata, hsplit, stringMk_data, hp, hexp,
          Database.set_license_active]
  refine ⟨by simp [License.activate_license, hv, Database.save_license], ?_, ?_, ?_⟩
  · rw [hA, hL]
    unfold License.is_licensed
    simp [Database.get_license_info]
  · rw [hA, hL, hlog]
  · rw [hA, hL, hlog]
    exact is_licensed_of_valid_payload rfl rfl rfl hv hp hexp

/-- Witness for C5 at node 0 with expiry 2099-01-01, checked on
2026-01-02. -/
theorem C5_logout_login_roundtrip_witness :
    (License.activate_license 0 dtSample
      (License.generate_license_key (License.get_device_mac 0) "2099-01-01")
      "2099-01-01" st0).1 = true ∧
    License.is_licensed 0 dtSample
      (Database.set_license_active false
        (License.activate_license 0 dtSample
          (License.generate_license_key (License.get_device_mac 0) "2099-01-01")
          "2099-01-01" st0).2).2 = false ∧
    (License.login_with_key 0 dtSample
      (License.generate_license_key (License.get_device_mac 0) "2099-01-01")
      (Database.set_license_active false
        (License.activate_license 0 dtSample
          (License.generate_license_key (License.get_device_mac 0) "2099-01-01")
          "2099-01-01" st0).2).2).1 = true ∧
    License.is_licensed 0 dtSample
      (License.login_with_key 0 dtSample
        (License.generate_license_key (License.get_device_mac 0) "2099-01-01")
        (Database.set_license_active false
          (License.activate_license 0 dtSample
            (License.generate_license_key (License.get_device_mac 0) "2099-01-01")
            "2099-01-01" st0).2).2).2 = true :=
  C5_logout_login_roundtrip 0 dtSample
    (License.generate_license_key (License.get_device_mac 0) "2099-01-01")
    "2099-01-01" ⟨2099, 1, 1⟩ st0
    (by unfold License.validate_license; exact decide_eq_true rfl)
    (by decide) (by decide)

/-! ## Claim C7: the read cache -/

/-- C7: set followed by get within the TTL returns the stored value; get on
an entry strictly older than the TTL is a miss and evicts exactly that
entry; invalidate none clears the whole cache; invalidate p removes exactly
the entries whose key starts with p. -/
theorem C7_cache_semantics (tset tget : Nat) (c : SimpleCache) (k : String)
    (v : CacheVal) (p : String) :
    (tget - tset ≤ c.ttl →
      (cacheGet tget (cacheSet tset c k v) k).1 = some v) ∧
    (tget - tset > c.ttl →
      (cacheGet tget (cacheSet tset c k v) k).1 = none ∧
      ∀ e ∈ (cacheGet tget (cacheSet tset c k v) k).2.store, e.1 ≠ k) ∧
    (cacheInvalidate none c).store = [] ∧
    (∀ e, e ∈ (cacheInvalidate (some p) c).store ↔
      e ∈ c.store ∧ pyStartsWith p e.1 = false) := by
  have hfind : ((k, tset, v) :: c.store.filter (fun e => ! decide (e.1 = k))).find?
      (fun e => decide (e.1 = k)) = some (k, tset, v) := by
    simp [List.find?_cons]
  refine ⟨?_, ?_, rfl, ?_⟩
  · intro h
    simp only [cacheSet, cacheGet, hfind]
    rw [if_neg (by omega)]
  · intro h
    constructor
    · simp only [cacheSet, cacheGet, hfind]
      rw [if_pos (by omega)]
    · intro e he
      simp only [cacheSet, cacheGet, hfind] at he
      rw [if_pos (by omega)] at he
      simp only [List.mem_filter] at he
      have := he.2
      simp at this
      exact this
  · intro e
    simp [cacheInvalidate, List.mem_filter]

/-- Witness for C7: a value set at time 0 with TTL 5 is readable at time 3,
is a miss at time 9 with the entry evicted, and invalidating the active
prefix removes active:all and active:count but keeps history:today. -/
theorem C7_cache_semantics_witness :
    (3 - 0 ≤ (5 : Nat) ∧
      (cacheGet 3 (cacheSet 0 ⟨5, []⟩ "active:all" (CacheVal.count 7)) "active:all").1 =
        some (CacheVal.count 7)) ∧
    (9 - 0 > (5 : Nat) ∧
      (cacheGet 9 (cacheSet 0 ⟨5, []⟩ "active:all" (CacheVal.count 7)) "active:all").1 =
        none) ∧
    (cacheInvalidate (some "active")
      ⟨5, [("active:all", 1, CacheVal.count 2), ("active:count", 1, CacheVal.count 3),
           ("history:today", 2, CacheVal.count 1)]⟩).store =
      [("history:today", 2, CacheVal.count 1)] := by
  refine ⟨⟨by decide, ?_⟩, ⟨by decide, ?_⟩, by decide⟩
  · exact (C7_cache_semantics 0 3 ⟨5, []⟩ "active:all" (CacheVal.count 7) "x").1
      (by decide)
  · exact ((C7_cache_semantics 0 9 ⟨5, []⟩ "active:all" (CacheVal.count 7) "x").2.1
      (by decide)).1

/-! ## Claim C8: the license-key derivation -/

theorem sha256hex_length (s : String) : (sha256hex s).length = 64 := by
  simp [sha256hex, wordHex8]

/-- C8: generate_license_key is a pure function (identical arguments yield
the identical string), always returns a 19-character string, and equals the
spec formulation: the first 16 hex characters of the SHA-256 digest of
fingerprint underscore expiry underscore MNEO_VMS, uppercased, in four
4-character groups joined by dashes. -/
theorem C8_license_key_format (f e : String) :
    License.generate_license_key f e = License.generate_license_key f e ∧
    (License.generate_license_key f e).data.length = 19 ∧
    License.generate_license_key f e = License.derive_license_key_spec f e := by
  have h64 := sha256hex_length (f ++ "_" ++ e ++ "_MNEO_VMS")
  refine ⟨rfl, ?_, ?_⟩
  · show (List.intercalate ['-']
      [((sha256hex (f ++ "_" ++ e ++ "_MNEO_VMS")).drop 0).take 4 |>.map pyUpperChar,
       ((sha256hex (f ++ "_" ++ e ++ "_MNEO_VMS")).drop 4).take 4 |>.map pyUpperChar,
       ((sha256hex (f ++ "_" ++ e ++ "_MNEO_VMS")).drop 8).take 4 |>.map pyUpperChar,
       ((sha256hex (f ++ "_" ++ e ++ "_MNEO_VMS")).drop 12).take 4 |>.map
         pyUpperChar]).length = 19
    rw [intercalate_four]
    simp [List.length_take, List.length_drop, h64]
  · refine congrArg String.mk ?_
    show List.intercalate ['-']
      [((sha256hex (f ++ "_" ++ e ++ "_MNEO_VMS")).drop 0).take 4 |>.map pyUpperChar,
       ((sha256hex (f ++ "_" ++ e ++ "_MNEO_VMS")).drop 4).take 4 |>.map pyUpperChar,
       ((sha256hex (f ++ "_" ++ e ++ "_MNEO_VMS")).drop 8).take 4 |>.map pyUpperChar,
       ((sha256hex (f ++ "_" ++ e ++ "_MNEO_VMS")).drop 12).take 4 |>.map pyUpperChar] =
      List.intercalate ['-']
      [(((sha256hex (f ++ "_" ++ e ++ "_MNEO_VMS")).take 16).map pyUpperChar).take 4,
       ((((sha256hex (f ++ "_" ++ e ++ "_MNEO_VMS")).take 16).map pyUpperChar).drop 4).take 4,
       ((((sha256hex (f ++ "_" ++ e ++ "_MNEO_VMS")).take 16).map pyUpperChar).drop 8).take 4,
       ((((sha256hex (f ++ "_" ++ e ++ "_MNEO_VMS")).take 16).map pyUpperChar).drop 12).take 4]
    simp [List.map_take, List.map_drop, List.drop_take, List.take_take]

/-! ## Claim C4: write-path cache invalidation -/

/-- C4 counterexample: get_todays_history fills the history:today cache;
a successful add_visitor then inserts a fresh row for today but invalidates
only the active and counts prefixes, so an immediate get_todays_history
(3 seconds later, within the 5-second TTL) still serves the stale cached
list that omits the newly inserted visitor. -/
theorem C4_stale_history_counterexample :
    (Database.add_visitor dtSample argsC4
      (Database.get_todays_history ⟨2026, 1, 2⟩ 0 stC4).2).1 = true ∧
    (Database.add_visitor dtSample argsC4
      (Database.get_todays_history ⟨2026, 1, 2⟩ 0 stC4).2).2.visitors =
      [vSample, rowC4] ∧
    rowC4.check_in_time.date = ⟨2026, 1, 2⟩ ∧
    (Database.get_todays_history ⟨2026, 1, 2⟩ 3
      (Database.add_visitor dtSample argsC4
        (Database.get_todays_history ⟨2026, 1, 2⟩ 0 stC4).2).2).1 = [vSample] ∧
    rowC4 ∉ (Database.get_todays_history ⟨2026, 1, 2⟩ 3
      (Database.add_visitor dtSample argsC4
        (Database.get_todays_history ⟨2026, 1, 2⟩ 0 stC4).2).2).1 := by
  refine ⟨by decide, by decide, by decide, by decide, by decide⟩

/-- C4 (amended): a successful add_visitor invalidates exactly the active
and counts cache prefixes before returning (entries under other prefixes,
such as history:today, survive unchanged), so an immediate
get_todays_checkin_count is recomputed from the table and reflects the
newly inserted visitor, while get_todays_history may still serve a stale
cached list until the TTL expires. -/
theorem C4_add_visitor_invalidates_active_counts (now : DateTime)
    (a : Database.AddVisitorArgs) (st : SysState) (today : Date) (tnow : Nat)
    (h : (Database.add_visitor now a st).1 = true) :
    (Database.add_visitor now a st).2.cache.store =
      (st.cache.store.filter (fun e => ! pyStartsWith "active" e.1)).filter
        (fun e => ! pyStartsWith "counts" e.1) ∧
    (Database.get_todays_checkin_count today tnow (Database.add_visitor now a st).2).1 =
      ((Database.add_visitor now a st).2.visitors.filter
        (fun v => decide (v.check_in_time.date = today))).length := by
  by_cases h1 : (a.nric.getD "" ≠ "") ∧
      Database.validate_nric (pyUpper (a.nric.getD "")) = false
  · simp [Database.add_visitor, h1] at h
  by_cases h2 : (a.hp_no.getD "" ≠ "") ∧ Database.validate_hp (a.hp_no.getD "") = false
  · simp [Database.add_visitor, h1, h2] at h
  have hcache : (Database.add_visitor now a st).2.cache =
      cacheInvalidate (some "counts") (cacheInvalidate (some "active") st.cache) := by
    simp [Database.add_visitor, h1, h2]
  have hstore : (Database.add_visitor now a st).2.cache.store =
      (st.cache.store.filter (fun e => ! pyStartsWith "active" e.1)).filter
        (fun e => ! pyStartsWith "counts" e.1) := by
    rw [hcache]; rfl
  refine ⟨hstore, ?_⟩
  have hfind : (Database.add_visitor now a st).2.cache.store.find?
      (fun e => decide (e.1 = "counts:today")) = none := by
    apply List.find?_eq_none.mpr
    intro x hx
    rw [hstore] at hx
    have hc : pyStartsWith "counts" x.1 = false := by
      have := (List.mem_filter.mp hx).2
      simpa using this
    simp only [decide_eq_true_eq]
    intro hxk
    rw [hxk] at hc
    exact absurd hc (by decide)
  simp [Database.get_todays_checkin_count, cacheGet, hfind]

/-- Witness for C4 (amended) on the concrete store with a cached history
list and a successful insertion. -/
theorem C4_add_visitor_invalidates_active_counts_witness :
    (Database.add_visitor dtSample argsC4
      (Database.get_todays_history ⟨2026, 1, 2⟩ 0 stC4).2).2.cache.store =
      ((Database.get_todays_history ⟨2026, 1, 2⟩ 0 stC4).2.cache.store.filter
        (fun e => ! pyStartsWith "active" e.1)).filter
        (fun e => ! pyStartsWith "counts" e.1) ∧
    (Database.get_todays_checkin_count ⟨2026, 1, 2⟩ 3
      (Database.add_visitor dtSample argsC4
        (Database.get_todays_history ⟨2026, 1, 2⟩ 0 stC4).2).2).1 =
      ((Database.add_visitor dtSample argsC4
        (Database.get_todays_history ⟨2026, 1, 2⟩ 0 stC4).2).2.visitors.filter
        (fun v => decide (v.check_in_time.date = ⟨2026, 1, 2⟩))).length :=
  C4_add_visitor_invalidates_active_counts dtSample argsC4
    (Database.get_todays_history ⟨2026, 1, 2⟩ 0 stC4).2 ⟨2026, 1, 2⟩ 3 (by decide)

/-! ## Claim C10: failure semantics at the public boundary -/

/-- C10: the public license operations agree everywhere with their
error-explicit counterparts collapsed at the boundary — every cryptographic,
format, expiry or key-mismatch failure inside is_licensed and login becomes
the boolean false with the state untouched, a storage failure inside revoke
becomes false rather than an exception, and the integrity guard under a
failing store leaves the state exactly as it found it instead of blocking
startup. -/
theorem C10_failures_collapse (node : Nat) (now : DateTime) (key : String)
    (st : SysState) :
    License.is_licensed node now st = License.errBool (License.is_licensedE node now st) ∧
    License.login_with_key node now key st =
      License.errLogin st (License.login_with_keyE node now key st) ∧
    License.revoke_licenseF true st = (false, st) ∧
    Database.verify_device_identityF true node now st = st := by
  refine ⟨?_, ?_, rfl, rfl⟩
  · unfold License.is_licensed License.is_licensedE
    cases hli : Database.get_license_info st with
    | none => rfl
    | some r =>
      dsimp only
      cases hk : r.license_key with
      | none => rfl
      | some c =>
        dsimp only
        by_cases ha : r.is_active = false
        · simp [ha, License.errBool]
        · rw [if_neg ha, if_neg ha]
          cases hd : License.decrypt node c with
          | none => rfl
          | some dec =>
            dsimp only
            rcases hs : splitChar '|' dec.data with _ | ⟨kl, _ | ⟨el, _ | _⟩⟩ <;>
              try rfl
            dsimp only
            cases hp : parseYMD (String.mk el) with
            | none => rfl
            | some d =>
              dsimp only
              by_cases he : DateTime.ltB (cutover d) now = true
              · rw [if_pos he, if_pos he]
                rfl
              · rw [if_neg he, if_neg he]
                cases hv : License.validate_license node (String.mk kl) (String.mk el) <;>
                  simp [hv, License.errBool]
  · unfold License.login_with_key License.login_with_keyE
    cases hli : Database.get_license_info st with
    | none => rfl
    | some r =>
      dsimp only
      cases hk : r.license_key with
      | none => rfl
      | some c =>
        dsimp only
        cases hd : License.decrypt node c with
        | none => rfl
        | some dec =>
          dsimp only
          rcases hs : splitChar '|' dec.data with _ | ⟨kl, _ | ⟨el, _ | _⟩⟩ <;>
            try rfl
          dsimp only
          by_cases hkey : key ≠ String.mk kl
          · rw [if_pos hkey, if_pos hkey]
            rfl
          · rw [if_neg hkey, if_neg hkey]
            cases hp : parseYMD (String.mk el) with
            | none => rfl
            | some d =>
              dsimp only
              by_cases he : DateTime.ltB (cutover d) now = true
              · rw [if_pos he, if_pos he]
                rfl
              · rw [if_neg he, if_neg he]
                rfl

end VMS
